import Mathlib

/-!
# TenebraChat server — shallow embedding and verification

This file embeds, in Lean 4, the data model and the operations of the
TenebraChat relay server (TypeScript/Express/Objection) that the spec's
claims are about, and proves or refutes each claim.

Conventions of the embedding:
* database tables are Lean lists of row structures; row `id`s (UUIDs in
  the database) are modelled as `Nat`, timestamps as `Int` milliseconds;
* each Objection static query method becomes a pure Lean function from
  the table(s) it reads to the value it returns together with the
  updated table(s);
* a method that runs inside one database transaction (`consumeOne`,
  `fetchAndDelete`) is embedded as a single atomic function on the
  table; a method that issues several statements with no transaction
  (`Device.upsertDevice`) is additionally embedded as a *list of
  primitive table operations*, so that interleavings with concurrent
  calls can be analysed;
* JavaScript dynamic values arriving in request bodies are modelled by
  `JField` (absent / non-string / string), and JS string trimming,
  base64 shape tests and base64 decoding are implemented character by
  character, matching Node semantics on the ASCII inputs the server
  accepts;
* cryptographic signature verification (`verifySignature`) and JWT
  verification (`jwt.verify`) are uninterpreted function parameters of
  the request handlers that use them.
-/

/-! ## JavaScript-level helpers -/

/-- A JSON field of a request body as the TypeScript code sees it:
absent (or `null` where the code treats `null` like absent), present
but not a string, or a string. -/
inductive JField where
  | absent : JField
  | nonstring : JField
  | jstr (s : String) : JField
deriving Repr, DecidableEq

/-- The whitespace characters relevant to `String.prototype.trim` for
the ASCII inputs this server handles. -/
def isJsWhitespace (c : Char) : Bool :=
  c == ' ' || c == '\t' || c == '\n' || c == '\r'

/-- `trim()` on a list of characters. -/
def jsTrimList (l : List Char) : List Char :=
  ((l.dropWhile isJsWhitespace).reverse.dropWhile isJsWhitespace).reverse

/-- JavaScript `s.trim()`. -/
def jsTrim (s : String) : String :=
  String.mk (jsTrimList s.data)

/-- JavaScript `s.length` (code units; identical to character count for
the ASCII data this server handles). -/
def jsLen (s : String) : Nat := s.data.length

/-- A character of the base64 alphabet `[A-Za-z0-9+/]`. -/
def isB64Char (c : Char) : Bool :=
  c.isAlphanum || c == '+' || c == '/'

/-- Test for the regex `^[A-Za-z0-9+/]+={0,2}$` (one or more base64
characters followed by at most two padding characters). -/
def matchesB64SigShape (s : String) : Bool :=
  let cs := s.data
  let dat := cs.takeWhile isB64Char
  let pad := cs.drop dat.length
  decide (1 ≤ dat.length) && decide (pad.length ≤ 2) && pad.all (· == '=')

/-- Test for the regex `^[A-Za-z0-9+/]*={0,2}$` (zero or more base64
characters followed by at most two padding characters). -/
def matchesB64Loose (s : String) : Bool :=
  let cs := s.data
  let dat := cs.takeWhile isB64Char
  let pad := cs.drop dat.length
  decide (pad.length ≤ 2) && pad.all (· == '=')

/-- Numeric value of a base64 alphabet character. -/
def b64CharVal (c : Char) : Nat :=
  if 'A' ≤ c && c ≤ 'Z' then c.toNat - 65
  else if 'a' ≤ c && c ≤ 'z' then c.toNat - 97 + 26
  else if '0' ≤ c && c ≤ '9' then c.toNat - 48 + 52
  else if c == '+' then 62
  else 63

/-- Decode a list of 6-bit values into bytes, as Node's forgiving
base64 decoder does: full groups of four yield three bytes, a leftover
of three yields two bytes, of two yields one byte, of one yields
nothing. -/
def b64DecodeGroups : List Nat → List Nat
  | a :: b :: c :: d :: rest =>
      (a * 4 + b / 16) :: ((b % 16) * 16 + c / 4) :: ((c % 4) * 64 + d) :: b64DecodeGroups rest
  | [a, b, c] => [a * 4 + b / 16, (b % 16) * 16 + c / 4]
  | [a, b] => [a * 4 + b / 16]
  | _ => []

/-- Node `Buffer.from(s, 'base64')`: ignore non-alphabet characters
(padding included) and decode the remaining 6-bit digits. -/
def b64decode (s : String) : List Nat :=
  b64DecodeGroups ((s.data.filter isB64Char).map b64CharVal)

/-- Byte length of Node `Buffer.from(s, 'base64')`. -/
def b64DecodedLength (s : String) : Nat :=
  3 * (s.data.filter isB64Char).length / 4

/-! ## Data model: rows and tables

Rows mirror the Objection models (`users`, `devices`,
`auth_challenges`, `one_time_pre_keys`, `message_queue`). -/

structure UserRow where
  id : String
  username : String
  identity_public_key : String
  registration_id : Nat
deriving Repr, DecidableEq

structure DeviceRow where
  id : Nat
  user_id : String
  device_id : String
  identity_public_key : String
  registration_id : Nat
  fcm_token : Option String
  last_seen_at : Int
deriving Repr, DecidableEq

structure AuthChallengeRow where
  id : Nat
  user_id : String
  nonce : String
  expires_at : Int
  created_at : Int
deriving Repr, DecidableEq

structure OneTimePreKeyRow where
  id : Nat
  user_id : String
  key_id : Nat
  public_key : String
  created_at : Int
deriving Repr, DecidableEq

structure SignedPreKeyRow where
  id : Nat
  user_id : String
  key_id : Nat
  public_key : String
  signature : String
  created_at : Int
deriving Repr, DecidableEq

structure QueuedMessageRow where
  id : Nat
  recipient_id : String
  sender_id : String
  encrypted_payload : List Nat
  message_type : String
  file_reference : Option String
  created_at : Int
  expires_at : Int
deriving Repr, DecidableEq

/-! ## Scheduler (CleanupService)

Embedded from the repository's `CleanupService` (the variant with the
`started` guard and the two-phase daily queue purge, which is the one
spec §4.5 describes): `start()` registers the two cron jobs unless the
service is already started; `stop()` cancels every task. -/

/-- The two recurring jobs `CleanupService.start` registers. -/
inductive CronJob where
  | challengeReaper : CronJob
  | queueReaper : CronJob
deriving Repr, DecidableEq

structure CleanupServiceState where
  tasks : List CronJob
  started : Bool
deriving Repr, DecidableEq

/-- `new CleanupService()`: no tasks, not started. -/
def CleanupService.initial : CleanupServiceState :=
  { tasks := [], started := false }

/-- `CleanupService.start()`: if already started, warn and return;
otherwise push the challenge-reaper and queue-reaper cron tasks and
set the started flag. -/
def CleanupService.start (s : CleanupServiceState) : CleanupServiceState :=
  if s.started then s
  else { tasks := s.tasks ++ [CronJob.challengeReaper, CronJob.queueReaper], started := true }

/-- `CleanupService.stop()`: stop every task, clear the list, clear the
flag. -/
def CleanupService.stop (s : CleanupServiceState) : CleanupServiceState :=
  { tasks := [], started := false }

/-- Milliseconds in one day. -/
def msPerDay : Int := 86400000

/-- `QueuedMessage.cleanupExpired()`: delete rows with
`expires_at < now`; returns the remaining table and the deleted
count. -/
def QueuedMessage.cleanupExpired (now : Int) (q : List QueuedMessageRow) :
    List QueuedMessageRow × Nat :=
  let remaining := q.filter (fun m => !(decide (m.expires_at < now)))
  (remaining, q.length - remaining.length)

/-- One run of the daily queue-reaper job (03:00 UTC): first
`QueuedMessage.cleanupExpired()`, then delete rows with
`created_at < now − 30 days`; returns the remaining table and both
deletion counts. -/
def queueReaperRun (now : Int) (q : List QueuedMessageRow) :
    List QueuedMessageRow × Nat × Nat :=
  let step1 := QueuedMessage.cleanupExpired now q
  let cutoff := now - 30 * msPerDay
  let remaining := step1.1.filter (fun m => !(decide (m.created_at < cutoff)))
  (remaining, step1.2, step1.1.length - remaining.length)

/-! ## fetchOffline limit computation -/

/-- JavaScript `parseInt(x, 10) || 100`: the parse result is `none`
when `parseInt` returned `NaN` (absent or non-numeric parameter), and
`0` is falsy, so both fall back to `100`. -/
def jsParseIntOr100 (p : Option Int) : Int :=
  match p with
  | none => 100
  | some n => if n == 0 then 100 else n

/-- The effective drain limit of `fetchOfflineMessages`:
`Math.min(Math.max(parseInt(req.query.limit, 10) || 100, 1), 100)`. -/
def effectiveDrainLimit (p : Option Int) : Int :=
  min (max (jsParseIntOr100 p) 1) 100

/-! ## Device table: single-session upsert

`Device.upsertDevice` in `models/Device.ts` issues two *separate*
statements — `this.query().where({user_id}).delete()` then
`this.query().insertAndFetch({...})` — with no surrounding
transaction, unlike `OneTimePreKey.consumeOne` and
`QueuedMessage.fetchAndDelete` which both open one.  To reason about
what a concurrent observer can see we embed it as the list of the two
primitive statements it runs. -/

/-- A primitive SQL statement touching the `devices` table. -/
inductive DeviceTableOp where
  | deleteAllForUser (userId : String) : DeviceTableOp
  | insertRow (row : DeviceRow) : DeviceTableOp
deriving Repr, DecidableEq

/-- Effect of one statement on the `devices` table. -/
def applyDeviceOp (table : List DeviceRow) : DeviceTableOp → List DeviceRow
  | .deleteAllForUser u => table.filter (fun r => r.user_id != u)
  | .insertRow r => table ++ [r]

/-- Effect of a sequence of statements. -/
def applyDeviceOps (table : List DeviceRow) (ops : List DeviceTableOp) : List DeviceRow :=
  ops.foldl applyDeviceOp table

/-- JavaScript `fcmToken || null` (the empty string is falsy). -/
def jsStringOrNull (v : Option String) : Option String :=
  match v with
  | some s => if s.data.isEmpty then none else some s
  | none => none

/-- The row `Device.upsertDevice` inserts. -/
def Device.newRow (userId deviceId identityPublicKey : String) (registrationId : Nat)
    (fcmToken : Option String) (newRowId : Nat) (now : Int) : DeviceRow :=
  { id := newRowId, user_id := userId, device_id := deviceId,
    identity_public_key := identityPublicKey, registration_id := registrationId,
    fcm_token := jsStringOrNull fcmToken, last_seen_at := now }

/-- `Device.upsertDevice`: the two sequential statements it runs —
delete all of the user's rows, then insert the new device.  No
transaction wraps them in the source. -/
def Device.upsertDeviceOps (userId deviceId identityPublicKey : String) (registrationId : Nat)
    (fcmToken : Option String) (newRowId : Nat) (now : Int) : List DeviceTableOp :=
  [DeviceTableOp.deleteAllForUser userId,
   DeviceTableOp.insertRow
     (Device.newRow userId deviceId identityPublicKey registrationId fcmToken newRowId now)]

/-- `Device.upsertDevice` run serially (no interleaved statements):
returns the inserted row and the resulting table. -/
def Device.upsertDevice (userId deviceId identityPublicKey : String) (registrationId : Nat)
    (fcmToken : Option String) (newRowId : Nat) (now : Int) (table : List DeviceRow) :
    DeviceRow × List DeviceRow :=
  (Device.newRow userId deviceId identityPublicKey registrationId fcmToken newRowId now,
   applyDeviceOps table
     (Device.upsertDeviceOps userId deviceId identityPublicKey registrationId fcmToken newRowId now))

/-- `Device.findByUserId`: all device rows of a user. -/
def Device.findByUserId (userId : String) (table : List DeviceRow) : List DeviceRow :=
  table.filter (fun r => r.user_id == userId)

/-- `Device.findByUserIdAndDeviceId`. -/
def Device.findByUserIdAndDeviceId (userId deviceId : String) (table : List DeviceRow) :
    Option DeviceRow :=
  table.find? (fun r => r.user_id == userId && r.device_id == deviceId)

/-! ## One-time pre-keys and bundle assembly -/

/-- `OneTimePreKey.countByUserId`: count of rows for the user. -/
def OneTimePreKey.countByUserId (userId : String) (table : List OneTimePreKeyRow) : Nat :=
  (table.filter (fun r => r.user_id == userId)).length

/-- The row returned by
`.where({user_id}).orderBy('created_at','asc').forUpdate().first()`:
the user's row with least `created_at` (first such row on ties). -/
def oldestOtkFor (userId : String) (table : List OneTimePreKeyRow) :
    Option OneTimePreKeyRow :=
  match table.filter (fun r => r.user_id == userId) with
  | [] => none
  | r :: rs =>
      some (rs.foldl (fun best c => if c.created_at < best.created_at then c else best) r)

/-- `OneTimePreKey.consumeOne`: inside one transaction, select and lock
the user's oldest one-time pre-key, delete it by id, and return it;
returns `none` and leaves the table unchanged when the user has no
keys.  The transaction makes the whole step atomic, which is why it is
embedded as a single function on the table. -/
def OneTimePreKey.consumeOne (userId : String) (table : List OneTimePreKeyRow) :
    Option OneTimePreKeyRow × List OneTimePreKeyRow :=
  match oldestOtkFor userId table with
  | none => (none, table)
  | some k => (some k, table.filter (fun r => r.id != k.id))

/-- `SignedPreKey.findLatestByUserId`:
`.where({user_id}).orderBy('created_at','desc').first()`. -/
def SignedPreKey.findLatestByUserId (userId : String) (table : List SignedPreKeyRow) :
    Option SignedPreKeyRow :=
  match table.filter (fun r => r.user_id == userId) with
  | [] => none
  | r :: rs =>
      some (rs.foldl (fun best c => if best.created_at < c.created_at then c else best) r)

/-- `User.query().findById(userId)`. -/
def User.findById (userId : String) (users : List UserRow) : Option UserRow :=
  users.find? (fun u => u.id == userId)

/-- `User.findByUsername`. -/
def User.findByUsername (username : String) (users : List UserRow) : Option UserRow :=
  users.find? (fun u => u.username == username)

/-- The assembled pre-key bundle (`PreKeyBundle` in `types`):
`signed_pre_key` is `(key_id, public_key, signature)`,
`one_time_pre_key` is `(key_id, public_key)` when one was consumed. -/
structure PreKeyBundle where
  user_id : String
  username : String
  registration_id : Nat
  identity_public_key : String
  signed_pre_key : Nat × String × String
  one_time_pre_key : Option (Nat × String)
deriving Repr, DecidableEq

/-- `KeyBundleService.getPreKeyBundle`: look the user up, fetch the
latest signed pre-key, consume one one-time pre-key if available, and
assemble the bundle.  Returns the bundle (or `null`) and the one-time
pre-key table as it stands afterwards. -/
def KeyBundleService.getPreKeyBundle (userId : String) (users : List UserRow)
    (spks : List SignedPreKeyRow) (otks : List OneTimePreKeyRow) :
    Option PreKeyBundle × List OneTimePreKeyRow :=
  match User.findById userId users with
  | none => (none, otks)
  | some user =>
    match SignedPreKey.findLatestByUserId userId spks with
    | none => (none, otks)
    | some spk =>
      let consumed := OneTimePreKey.consumeOne userId otks
      (some { user_id := user.id, username := user.username,
              registration_id := user.registration_id,
              identity_public_key := user.identity_public_key,
              signed_pre_key := (spk.key_id, spk.public_key, spk.signature),
              one_time_pre_key := consumed.1.map (fun k => (k.key_id, k.public_key)) },
       consumed.2)

/-- Example user record used by the C2 witness scenario. -/
def exampleUsers : List UserRow :=
  [{ id := "a", username := "alice", identity_public_key := "IPK", registration_id := 5 }]

/-- Example signed pre-key used by the C2 witness scenario. -/
def exampleSpks : List SignedPreKeyRow :=
  [{ id := 1, user_id := "a", key_id := 3, public_key := "SPK",
     signature := "SIG", created_at := 0 }]

/-- Example one-time pre-keys used by the C2 witness scenario. -/
def exampleOtks : List OneTimePreKeyRow :=
  [{ id := 1, user_id := "a", key_id := 11, public_key := "P1", created_at := 0 },
   { id := 2, user_id := "a", key_id := 12, public_key := "P2", created_at := 1 }]

/-- Example bundle returned by the first fetch of the C2 witness. -/
def exampleBundle1 : PreKeyBundle :=
  { user_id := "a", username := "alice", registration_id := 5,
    identity_public_key := "IPK", signed_pre_key := (3, "SPK", "SIG"),
    one_time_pre_key := some (11, "P1") }

/-- Example bundle returned by the second fetch of the C2 witness. -/
def exampleBundle2 : PreKeyBundle :=
  { user_id := "a", username := "alice", registration_id := 5,
    identity_public_key := "IPK", signed_pre_key := (3, "SPK", "SIG"),
    one_time_pre_key := some (12, "P2") }

/-! ## Offline message queue: atomic drain -/

/-- The `ORDER BY created_at ASC` ordering. -/
def qle (a b : QueuedMessageRow) : Prop := a.created_at ≤ b.created_at

instance : DecidableRel qle := fun a b =>
  inferInstanceAs (Decidable (a.created_at ≤ b.created_at))

instance : IsTotal QueuedMessageRow qle := ⟨fun a b => le_total a.created_at b.created_at⟩

instance : IsTrans QueuedMessageRow qle := ⟨fun _ _ _ => le_trans⟩

/-- The queued rows of one recipient. -/
def queueRowsFor (u : String) (q : List QueuedMessageRow) : List QueuedMessageRow :=
  q.filter (fun m => m.recipient_id == u)

/-- `QueuedMessage.fetchAndDelete`: inside one transaction, select the
recipient's oldest at-most-`limit` rows ordered by `created_at`
ascending under row locks, delete them by id, and return them; when
nothing matched, return `[]` without deleting.  The transaction makes
the step atomic, so it is embedded as one function on the table. -/
def QueuedMessage.fetchAndDelete (recipientId : String) (limit : Nat)
    (q : List QueuedMessageRow) : List QueuedMessageRow × List QueuedMessageRow :=
  let msgs := (List.insertionSort qle (queueRowsFor recipientId q)).take limit
  if msgs.isEmpty then ([], q)
  else (msgs, q.filter (fun m => !((msgs.map (fun x => x.id)).contains m.id)))

/-- Example queue used by the C3 scenarios: two rows for recipient
`"r"`, the older one first. -/
def exampleQueue : List QueuedMessageRow :=
  [{ id := 1, recipient_id := "r", sender_id := "s", encrypted_payload := [1],
     message_type := "signal_message", file_reference := none, created_at := 0,
     expires_at := 100 },
   { id := 2, recipient_id := "r", sender_id := "s", encrypted_payload := [2],
     message_type := "signal_message", file_reference := none, created_at := 1,
     expires_at := 100 }]

/-! ## Authentication: verify-challenge controller -/

/-- A character allowed in an FCM token: `[A-Za-z0-9_\-:.]`. -/
def isFcmChar (c : Char) : Bool :=
  c.isAlphanum || c == '_' || c == '-' || c == ':' || c == '.'

/-- Test for the regex `^[A-Za-z0-9_\-:.]+$`. -/
def matchesFcmShape (s : String) : Bool :=
  !s.data.isEmpty && s.data.all isFcmChar

/-- `isValidEd25519Signature`: at most 100 characters, matching
`^[A-Za-z0-9+/]+={0,2}$`, and base64-decoding to exactly 64 bytes. -/
def isValidEd25519Signature (s : String) : Bool :=
  if decide (jsLen s > 100) || !(matchesB64SigShape s) then false
  else b64DecodedLength s == 64

/-- Result of `validateVerifyInput`: an error string, or the typed
`VerifyInput`. -/
inductive VerifyInputResult where
  | invalid (err : String) : VerifyInputResult
  | ok (username signature deviceId : String) (fcmToken : Option String) : VerifyInputResult
deriving Repr, DecidableEq

/-- `validateVerifyInput`: required-field checks, signature format,
deviceId length, optional fcmToken constraints; on success returns the
trimmed username, the raw signature and deviceId, and the fcmToken when
it was a string. -/
def validateVerifyInput (username signature deviceId fcmToken : JField) :
    VerifyInputResult :=
  match username, signature, deviceId with
  | .jstr un, .jstr sg, .jstr dv =>
    if jsLen (jsTrim un) == 0 || jsLen (jsTrim sg) == 0 || jsLen (jsTrim dv) == 0 then
      .invalid "Missing required fields: username, signature, deviceId"
    else if !(isValidEd25519Signature sg) then
      .invalid "Invalid signature format or length"
    else if decide (jsLen dv > 255) then
      .invalid "Invalid deviceId: exceeds maximum length"
    else
      match fcmToken with
      | .nonstring => .invalid "Invalid fcmToken: must be a string"
      | .absent => .ok (jsTrim un) sg dv none
      | .jstr f =>
        if jsLen (jsTrim f) == 0 || decide (jsLen (jsTrim f) > 512) then
          .invalid "Invalid fcmToken: length must be between 1 and 512 characters"
        else if !(matchesFcmShape (jsTrim f)) then
          .invalid "Invalid fcmToken: contains unsupported characters"
        else .ok (jsTrim un) sg dv (some f)
  | _, _, _ => .invalid "Missing required fields: username, signature, deviceId"

/-- The session token `jwt.sign({userId, deviceId}, secret,
{expiresIn})` mints. -/
structure JwtTok where
  userId : String
  deviceId : String
  secret : String
  expiresIn : String
deriving Repr, DecidableEq

/-- A JSON response body of the auth controller: `{success:false,
error}` or the verify success payload. -/
inductive RespBody where
  | err (message : String) : RespBody
  | nonceData (nonce : String) : RespBody
  | verifyData (token : JwtTok) (userId username : String)
      (remainingKeyCount : Nat) (lowKeyCount : Bool) : RespBody
deriving Repr, DecidableEq

/-- The database state the auth controller reads and writes. -/
structure AuthState where
  users : List UserRow
  challenges : List AuthChallengeRow
  devices : List DeviceRow
  oneTimePreKeys : List OneTimePreKeyRow
deriving Repr, DecidableEq

/-- `AuthChallenge.findActiveByUserId`:
`.where({user_id}).where('expires_at','>',now).orderBy('created_at','desc').first()`. -/
def AuthChallenge.findActiveByUserId (userId : String) (now : Int)
    (cs : List AuthChallengeRow) : Option AuthChallengeRow :=
  match cs.filter (fun c => c.user_id == userId && decide (now < c.expires_at)) with
  | [] => none
  | c :: rest =>
      some (rest.foldl (fun best x => if best.created_at < x.created_at then x else best) c)

/-- `AuthChallenge.deleteByUserId`. -/
def AuthChallenge.deleteByUserId (userId : String) (cs : List AuthChallengeRow) :
    List AuthChallengeRow :=
  cs.filter (fun c => c.user_id != userId)

/-- HTTP status, body and resulting database state of one
`verifyChallenge` call. -/
structure VerifyOutcome where
  status : Nat
  body : RespBody
  state : AuthState
deriving Repr, DecidableEq

/-- `POST /api/auth/verify` (`verifyChallenge`): validate the input;
look the user up (generic 401 on miss); find the active challenge
(400 with a distinct message on miss); verify the signature over the
nonce with the uninterpreted verifier `vf`; **always** delete the
user's challenge rows; on bad signature answer the generic 401; on
success upsert the device (single-session enforcement), mint the JWT,
count the remaining one-time keys and answer 200. -/
def verifyChallenge (vf : String → String → String → Bool)
    (secret expiresIn : String) (now : Int) (newDeviceRowId : Nat)
    (username signature deviceId fcmToken : JField) (st : AuthState) : VerifyOutcome :=
  match validateVerifyInput username signature deviceId fcmToken with
  | .invalid msg => ⟨400, .err msg, st⟩
  | .ok uname sg dv fcm =>
    match User.findByUsername uname st.users with
    | none => ⟨401, .err "Authentication failed", st⟩
    | some user =>
      match AuthChallenge.findActiveByUserId user.id now st.challenges with
      | none => ⟨400, .err "No active challenge found — request a new one", st⟩
      | some challenge =>
        let isValid := vf user.identity_public_key challenge.nonce sg
        let st1 : AuthState :=
          { st with challenges := AuthChallenge.deleteByUserId user.id st.challenges }
        if !isValid then ⟨401, .err "Authentication failed", st1⟩
        else
          let st2 : AuthState :=
            { st1 with devices := (Device.upsertDevice user.id dv user.identity_public_key
                user.registration_id fcm newDeviceRowId now st1.devices).2 }
          let remainingKeys := OneTimePreKey.countByUserId user.id st2.oneTimePreKeys
          ⟨200, .verifyData ⟨user.id, dv, secret, expiresIn⟩ user.id user.username
              remainingKeys (remainingKeys < 20), st2⟩

/-- A base64 string of 86 alphabet characters and two padding
characters: a well-formed encoding of a 64-byte Ed25519 signature. -/
def exampleSig : String := String.mk (List.replicate 86 'A' ++ ['=', '='])

/-- Auth state used by the C4 witness: `alice` with one active
challenge. -/
def exampleAuthState : AuthState :=
  { users := exampleUsers,
    challenges := [{ id := 1, user_id := "a", nonce := "N", expires_at := 100, created_at := 0 }],
    devices := [], oneTimePreKeys := [] }

/-! ## Bearer-token middleware -/

/-- A JSON value in a decoded JWT payload (the shapes the middleware's
runtime checks distinguish). -/
inductive JVal where
  | vstr (s : String) : JVal
  | vnum (n : Int) : JVal
  | vbool (b : Bool) : JVal
  | vnull : JVal
deriving Repr, DecidableEq

/-- What `jwt.verify` can hand back on success: a non-object payload,
or an object with optional `userId` and `deviceId` fields. -/
inductive JwtDecoded where
  | nonobject : JwtDecoded
  | obj (userId : Option JVal) (deviceId : Option JVal) : JwtDecoded
deriving Repr, DecidableEq

/-- `extractBearerToken`: the header must be a string starting with
`"Bearer "`; the rest of the header is the token, which must be
non-empty. -/
def extractBearerToken (header : Option String) : Option String :=
  match header with
  | none => none
  | some h =>
    if h.data.take 7 = "Bearer ".data then
      if 0 < (h.data.drop 7).length then some (String.mk (h.data.drop 7)) else none
    else none

/-- Outcome of the `authenticate` middleware: attach the payload and
call `next()`, or answer with a status and body. -/
inductive AuthResult where
  | success (userId deviceId : String) : AuthResult
  | reject (status : Nat) (body : RespBody) : AuthResult
deriving Repr, DecidableEq

/-- `typeof v === 'string'` on a JSON field. -/
def isStrField : Option JVal → Bool
  | some (.vstr _) => true
  | _ => false

/-- The string held by a field known to be a string (dummy otherwise). -/
def strFieldVal : Option JVal → String
  | some (.vstr s) => s
  | _ => ""

/-- The middleware's runtime payload validation: the decoded value must
be a non-null object whose `userId` and `deviceId` are strings; on
success yield the typed `JwtPayload` pair. -/
def payloadCheck (dec : JwtDecoded) : Option (String × String) :=
  match dec with
  | .nonobject => none
  | .obj uidF didF =>
      if isStrField uidF && isStrField didF then some (strFieldVal uidF, strFieldVal didF)
      else none

/-- The `authenticate` middleware: extract the bearer token, verify it
with the uninterpreted `jwtVerify` (signature + expiry against the
server secret), check the payload carries string `userId` and
`deviceId`, and check the Device row still exists (remote-logout
enforcement); every failure is the generic 401. -/
def authenticate (jwtVerify : String → String → Option JwtDecoded) (secret : String)
    (devices : List DeviceRow) (authHeader : Option String) : AuthResult :=
  match extractBearerToken authHeader with
  | none => .reject 401 (.err "Authentication failed")
  | some token =>
    match jwtVerify token secret with
    | none => .reject 401 (.err "Authentication failed")
    | some decoded =>
      match payloadCheck decoded with
      | none => .reject 401 (.err "Authentication failed")
      | some payload =>
        match Device.findByUserIdAndDeviceId payload.1 payload.2 devices with
        | none => .reject 401 (.err "Authentication failed")
        | some _ => .success payload.1 payload.2

/-- A JWT verifier for the C6 witness: accepts exactly the token `"T"`
under the secret `"secret"`, yielding the payload for user `a`, device
`d1`. -/
def exampleJwtVerify : String → String → Option JwtDecoded :=
  fun tok secret =>
    if tok == "T" && secret == "secret" then
      some (.obj (some (.vstr "a")) (some (.vstr "d1")))
    else none

/-- Device table for the C6 witness. -/
def exampleDevices : List DeviceRow :=
  [Device.newRow "a" "d1" "IPK" 5 none 1 0]

/-! ## Relay: send-message controller -/

/-- One entry of the in-memory `onlineClients` registry. -/
structure OnlineClient where
  userId : String
  deviceId : String
  socketId : String
deriving Repr, DecidableEq

/-- `findOnlineDeviceForUser`: iterate the registry entries and return
the `(deviceId, socketId)` of the first entry whose `userId` matches. -/
def findOnlineDeviceForUser (userId : String)
    (clients : List (String × OnlineClient)) : Option (String × String) :=
  match clients.find? (fun e => e.2.userId == userId) with
  | none => none
  | some e => some (e.2.deviceId, e.2.socketId)

/-- The allowed Signal message types, in the order of the source's
set literal. -/
def allowedMessageTypes : List String :=
  ["signal_message", "pre_key_signal_message", "key_exchange"]

/-- Result of `validateSendInput`. -/
inductive SendInputResult where
  | invalid (err : String) : SendInputResult
  | ok (recipientId ciphertext type : String) : SendInputResult
deriving Repr, DecidableEq

/-- `validateSendInput`: required fields, 64 KiB bound, base64 shape,
message type defaulting to `signal_message` and checked against the
allowed set. -/
def validateSendInput (recipientId ciphertext type : JField) : SendInputResult :=
  match recipientId, ciphertext with
  | .jstr r, .jstr c =>
    if jsLen (jsTrim r) == 0 || jsLen (jsTrim c) == 0 then
      .invalid "Missing required fields: recipientId, ciphertext"
    else if decide (jsLen c > 65536) then
      .invalid "ciphertext exceeds maximum length of 65536 characters"
    else if !(matchesB64Loose c) then
      .invalid "ciphertext must be valid base64"
    else
      let messageType :=
        match type with
        | .jstr t => if 0 < jsLen (jsTrim t) then jsTrim t else "signal_message"
        | _ => "signal_message"
      if !(allowedMessageTypes.contains messageType) then
        .invalid "Invalid message type. Allowed: signal_message, pre_key_signal_message, key_exchange"
      else .ok (jsTrim r) c messageType
  | _, _ => .invalid "Missing required fields: recipientId, ciphertext"

/-- A `new_message` socket event as emitted to a recipient socket. -/
structure EmittedEvent where
  socketId : String
  senderId : String
  ciphertext : String
  type : String
  timestamp : Int
deriving Repr, DecidableEq

/-- Response body of the send-message controller. -/
inductive SendRespBody where
  | err (message : String) : SendRespBody
  | deliveredOnline : SendRespBody
  | queuedOffline (messageId : Nat) : SendRespBody
deriving Repr, DecidableEq

/-- Status, body, resulting queue table and emitted socket events of
one `sendMessage` call. -/
structure SendOutcome where
  status : Nat
  body : SendRespBody
  queue : List QueuedMessageRow
  emitted : List EmittedEvent
deriving Repr, DecidableEq

/-- The row `QueuedMessage.query().insertAndFetch({...})` creates: the
controller supplies recipient, sender, payload and type; `created_at`
and `expires_at` come from the schema defaults (`now` and
`now + 30 days`). -/
def queuedRowDefaults (recipientId senderId : String) (payload : List Nat)
    (mtype : String) (newId : Nat) (now : Int) : QueuedMessageRow :=
  { id := newId, recipient_id := recipientId, sender_id := senderId,
    encrypted_payload := payload, message_type := mtype, file_reference := none,
    created_at := now, expires_at := now + 30 * msPerDay }

/-- `POST /api/messages/send` (`sendMessage`): authentication guard,
input validation, self-send guard, recipient-device existence check;
then either real-time delivery — registry hit whose socket is still
connected — or persistence of the base64-decoded ciphertext to the
queue.  `connectedSockets` is the set of socket ids the Socket.io
server currently holds as connected. -/
def sendMessage (user : Option (String × String)) (recipientId ciphertext type : JField)
    (devices : List DeviceRow) (clients : List (String × OnlineClient))
    (connectedSockets : List String) (queue : List QueuedMessageRow)
    (newId : Nat) (now : Int) : SendOutcome :=
  match user with
  | none => ⟨401, .err "Not authenticated", queue, []⟩
  | some (senderId, _) =>
    match validateSendInput recipientId ciphertext type with
    | .invalid msg => ⟨400, .err msg, queue, []⟩
    | .ok recid ct mtype =>
      if recid == senderId then
        ⟨400, .err "Cannot send a message to yourself", queue, []⟩
      else if (Device.findByUserId recid devices).length == 0 then
        ⟨404, .err "Recipient not found or has no active device", queue, []⟩
      else
        match findOnlineDeviceForUser recid clients with
        | some od =>
          if connectedSockets.contains od.2 then
            ⟨200, .deliveredOnline, queue, [⟨od.2, senderId, ct, mtype, now⟩]⟩
          else
            ⟨201, .queuedOffline newId,
              queue ++ [queuedRowDefaults recid senderId (b64decode ct) mtype newId now], []⟩
        | none =>
          ⟨201, .queuedOffline newId,
            queue ++ [queuedRowDefaults recid senderId (b64decode ct) mtype newId now], []⟩

/-- Device table for the C7 witness: recipient `r` has one device. -/
def exampleRecipientDevices : List DeviceRow :=
  [Device.newRow "r" "dR" "IPK2" 6 none 2 0]

/-- An interleaving of two sequences of statements: each statement of
the merged schedule comes from one of the two calls, and each call's
statements keep their order. -/
inductive Interleaving {α : Type} : List α → List α → List α → Prop where
  | nil : Interleaving [] [] []
  | left {x : α} {xs ys zs : List α} :
      Interleaving xs ys zs → Interleaving (x :: xs) ys (x :: zs)
  | right {y : α} {xs ys zs : List α} :
      Interleaving xs ys zs → Interleaving xs (y :: ys) (y :: zs)

/-! ## Theorems -/

/-- **C9.** `CleanupService.start()` is idempotent: a second call
without an intervening `stop()` is a no-op — the `started` guard makes
it return before registering anything, so the scheduled-task state is
identical to the state after the first call and no duplicate jobs are
registered. -/
theorem C9_start_idempotent (s : CleanupServiceState) :
    CleanupService.start (CleanupService.start s) = CleanupService.start s := by
  unfold CleanupService.start
  by_cases h : s.started = true
  · simp [h]
  · simp [h]

/-- Witness for C9: starting twice from the freshly-constructed service
equals starting once, and that state holds exactly the two jobs. -/
theorem C9_start_idempotent_witness :
    CleanupService.start (CleanupService.start CleanupService.initial) =
      CleanupService.start CleanupService.initial ∧
    (CleanupService.start CleanupService.initial).tasks =
      [CronJob.challengeReaper, CronJob.queueReaper] :=
  ⟨C9_start_idempotent CleanupService.initial, by decide⟩

/-- **C8.** One run of the daily queue reaper deletes every row whose
`expires_at` is in the past and every row whose `created_at` is older
than 30 days, and keeps every row satisfying neither condition. -/
theorem C8_queue_reaper (now : Int) (q : List QueuedMessageRow)
    (m : QueuedMessageRow) (hm : m ∈ q) :
    (m.expires_at < now → m ∉ (queueReaperRun now q).1) ∧
    (m.created_at < now - 30 * msPerDay → m ∉ (queueReaperRun now q).1) ∧
    (¬ m.expires_at < now → ¬ m.created_at < now - 30 * msPerDay →
      m ∈ (queueReaperRun now q).1) := by
  unfold queueReaperRun QueuedMessage.cleanupExpired
  refine ⟨?_, ?_, ?_⟩
  · intro hexp hmem
    simp only [List.mem_filter] at hmem
    simp [hexp] at hmem
  · intro hold hmem
    simp only [List.mem_filter] at hmem
    simp [hold] at hmem
  · intro hexp hold
    simp only [List.mem_filter]
    refine ⟨⟨hm, ?_⟩, ?_⟩ <;> simp [hexp, hold]

/-- Witness for C8 at the spec's own instants: with `now = 10000 days`,
a row expiring one second in the past is deleted, a row created 31 days
ago is deleted, and a row created 29 days ago with a future
`expires_at` remains. -/
theorem C8_queue_reaper_witness :
    ({ id := 1, recipient_id := "r", sender_id := "s", encrypted_payload := [],
       message_type := "signal_message", file_reference := none,
       created_at := 10000 * msPerDay - 600000,
       expires_at := 10000 * msPerDay - 1000 } : QueuedMessageRow) ∉
      (queueReaperRun (10000 * msPerDay)
        [{ id := 1, recipient_id := "r", sender_id := "s", encrypted_payload := [],
           message_type := "signal_message", file_reference := none,
           created_at := 10000 * msPerDay - 600000,
           expires_at := 10000 * msPerDay - 1000 },
         { id := 2, recipient_id := "r", sender_id := "s", encrypted_payload := [],
           message_type := "signal_message", file_reference := none,
           created_at := 9969 * msPerDay,
           expires_at := 10020 * msPerDay },
         { id := 3, recipient_id := "r", sender_id := "s", encrypted_payload := [],
           message_type := "signal_message", file_reference := none,
           created_at := 9971 * msPerDay,
           expires_at := 10020 * msPerDay }]).1 ∧
    ({ id := 2, recipient_id := "r", sender_id := "s", encrypted_payload := [],
       message_type := "signal_message", file_reference := none,
       created_at := 9969 * msPerDay,
       expires_at := 10020 * msPerDay } : QueuedMessageRow) ∉
      (queueReaperRun (10000 * msPerDay)
        [{ id := 1, recipient_id := "r", sender_id := "s", encrypted_payload := [],
           message_type := "signal_message", file_reference := none,
           created_at := 10000 * msPerDay - 600000,
           expires_at := 10000 * msPerDay - 1000 },
         { id := 2, recipient_id := "r", sender_id := "s", encrypted_payload := [],
           message_type := "signal_message", file_reference := none,
           created_at := 9969 * msPerDay,
           expires_at := 10020 * msPerDay },
         { id := 3, recipient_id := "r", sender_id := "s", encrypted_payload := [],
           message_type := "signal_message", file_reference := none,
           created_at := 9971 * msPerDay,
           expires_at := 10020 * msPerDay }]).1 ∧
    ({ id := 3, recipient_id := "r", sender_id := "s", encrypted_payload := [],
       message_type := "signal_message", file_reference := none,
       created_at := 9971 * msPerDay,
       expires_at := 10020 * msPerDay } : QueuedMessageRow) ∈
      (queueReaperRun (10000 * msPerDay)
        [{ id := 1, recipient_id := "r", sender_id := "s", encrypted_payload := [],
           message_type := "signal_message", file_reference := none,
           created_at := 10000 * msPerDay - 600000,
           expires_at := 10000 * msPerDay - 1000 },
         { id := 2, recipient_id := "r", sender_id := "s", encrypted_payload := [],
           message_type := "signal_message", file_reference := none,
           created_at := 9969 * msPerDay,
           expires_at := 10020 * msPerDay },
         { id := 3, recipient_id := "r", sender_id := "s", encrypted_payload := [],
           message_type := "signal_message", file_reference := none,
           created_at := 9971 * msPerDay,
           expires_at := 10020 * msPerDay }]).1 := by
  refine ⟨?_, ?_, ?_⟩
  · exact (C8_queue_reaper (10000 * msPerDay) _ _ (by simp)).1 (by decide)
  · exact (C8_queue_reaper (10000 * msPerDay) _ _ (by simp)).2.1 (by decide)
  · exact (C8_queue_reaper (10000 * msPerDay) _ _ (by simp)).2.2 (by decide) (by decide)

/-- A fold that at each step keeps either the accumulator or the next
element stays inside the element's cons-cell closure. -/
theorem foldl_choice_mem {α : Type} (f : α → α → α)
    (hf : ∀ a b, f a b = a ∨ f a b = b) :
    ∀ (rs : List α) (r : α), rs.foldl f r ∈ r :: rs := by
  intro rs
  induction rs with
  | nil => intro r; simp
  | cons x xs ih =>
      intro r
      rw [List.foldl_cons]
      rcases hf r x with h1 | h1
      · rw [h1]
        rcases List.mem_cons.mp (ih r) with h2 | h2
        · rw [h2]; exact List.mem_cons_self _ _
        · exact List.mem_cons_of_mem _ (List.mem_cons_of_mem _ h2)
      · rw [h1]
        rcases List.mem_cons.mp (ih x) with h2 | h2
        · rw [h2]
          exact List.mem_cons_of_mem _ (List.mem_cons_self _ _)
        · exact List.mem_cons_of_mem _ (List.mem_cons_of_mem _ h2)

/-- The oldest one-time key selected for a user is one of the user's
rows. -/
theorem oldestOtkFor_spec (u : String) (t : List OneTimePreKeyRow) (k : OneTimePreKeyRow)
    (h : oldestOtkFor u t = some k) : k ∈ t ∧ k.user_id = u := by
  cases hf : t.filter (fun r => r.user_id == u) with
  | nil =>
      have hnone : oldestOtkFor u t = none := by
        unfold oldestOtkFor; rw [hf]
      rw [hnone] at h; cases h
  | cons r rs =>
      have heq : oldestOtkFor u t =
          some (rs.foldl (fun best c => if c.created_at < best.created_at then c else best) r) := by
        unfold oldestOtkFor; rw [hf]
      rw [heq] at h
      have hmem := foldl_choice_mem
        (fun best c => if c.created_at < best.created_at then c else best)
        (fun a b => by by_cases hc : b.created_at < a.created_at <;> simp [hc]) rs r
      rw [Option.some.inj h] at hmem
      have hkf : k ∈ t.filter (fun r => r.user_id == u) := by rw [hf]; exact hmem
      have hm := List.mem_filter.mp hkf
      exact ⟨hm.1, by simpa using hm.2⟩

/-- What `consumeOne` guarantees when it returns a key: the key was one
of the user's rows, and the resulting table is the old one with the
key's row deleted by id. -/
theorem consumeOne_fst_some (u : String) (t : List OneTimePreKeyRow) (k : OneTimePreKeyRow)
    (h : (OneTimePreKey.consumeOne u t).1 = some k) :
    k ∈ t ∧ k.user_id = u ∧
    (OneTimePreKey.consumeOne u t).2 = t.filter (fun r => r.id != k.id) := by
  cases ho : oldestOtkFor u t with
  | none =>
      have hnone : (OneTimePreKey.consumeOne u t).1 = none := by
        unfold OneTimePreKey.consumeOne; rw [ho]
      rw [hnone] at h; cases h
  | some k0 =>
      have heq : OneTimePreKey.consumeOne u t =
          (some k0, t.filter (fun r => r.id != k0.id)) := by
        unfold OneTimePreKey.consumeOne; rw [ho]
      rw [heq] at h
      have hk : k0 = k := Option.some.inj h
      subst hk
      rw [heq]
      exact ⟨(oldestOtkFor_spec u t k0 ho).1, (oldestOtkFor_spec u t k0 ho).2, rfl⟩

/-- Removing one of the user's rows (by its unique id) decrements the
user's one-time-key count by exactly one. -/
theorem countByUserId_remove (u : String) (k : OneTimePreKeyRow) :
    ∀ t : List OneTimePreKeyRow,
      (t.map (fun r => r.id)).Nodup → k ∈ t → k.user_id = u →
      OneTimePreKey.countByUserId u (t.filter (fun r => r.id != k.id)) + 1 =
        OneTimePreKey.countByUserId u t := by
  intro t
  induction t with
  | nil => intro _ hk; cases hk
  | cons x rest ih =>
      intro hid hk hu
      obtain ⟨hx, hrest⟩ :
          x.id ∉ rest.map (fun r => r.id) ∧ (rest.map (fun r => r.id)).Nodup := by
        rw [List.map_cons, List.nodup_cons] at hid
        exact hid
      rcases List.mem_cons.mp hk with hkx | hkr
      · subst hkx
        have hdrop : (k :: rest).filter (fun r => r.id != k.id) = rest := by
          rw [List.filter_cons]
          have hkk : (k.id != k.id) = false := by simp
          rw [hkk]
          simp only [Bool.false_eq_true, if_false]
          apply List.filter_eq_self.mpr
          intro a ha
          have hane : a.id ≠ k.id := by
            intro he
            exact hx (by rw [← he]; exact List.mem_map_of_mem _ ha)
          simpa using hane
        rw [hdrop]
        unfold OneTimePreKey.countByUserId
        rw [List.filter_cons]
        have hku : (k.user_id == u) = true := by simpa using hu
        rw [hku]
        simp
      · have hne : (x.id != k.id) = true := by
          have hxk : x.id ≠ k.id := by
            intro he
            exact hx (by rw [he]; exact List.mem_map_of_mem _ hkr)
          simpa using hxk
        have hkeep : (x :: rest).filter (fun r => r.id != k.id) =
            x :: rest.filter (fun r => r.id != k.id) := by
          rw [List.filter_cons, hne]
          simp
        rw [hkeep]
        unfold OneTimePreKey.countByUserId
        rw [List.filter_cons, List.filter_cons]
        by_cases hxu : (x.user_id == u) = true
        · rw [hxu]
          simp only [if_true, List.length_cons]
          have hihh := ih hrest hkr hu
          unfold OneTimePreKey.countByUserId at hihh
          omega
        · rw [Bool.not_eq_true] at hxu
          rw [hxu]
          simp only [Bool.false_eq_true, if_false]
          exact ih hrest hkr hu

/-- When `getPreKeyBundle` returns a bundle, its one-time-key field and
the resulting table both come from the single `consumeOne` step. -/
theorem getPreKeyBundle_otk (u : String) (users : List UserRow)
    (spks : List SignedPreKeyRow) (otks : List OneTimePreKeyRow) (b : PreKeyBundle)
    (h : (KeyBundleService.getPreKeyBundle u users spks otks).1 = some b) :
    (KeyBundleService.getPreKeyBundle u users spks otks).2 =
      (OneTimePreKey.consumeOne u otks).2 ∧
    b.one_time_pre_key =
      (OneTimePreKey.consumeOne u otks).1.map (fun k => (k.key_id, k.public_key)) := by
  cases hu : User.findById u users with
  | none =>
      have hnone : (KeyBundleService.getPreKeyBundle u users spks otks).1 = none := by
        unfold KeyBundleService.getPreKeyBundle; rw [hu]
      rw [hnone] at h; cases h
  | some user =>
      cases hs : SignedPreKey.findLatestByUserId u spks with
      | none =>
          have hnone : (KeyBundleService.getPreKeyBundle u users spks otks).1 = none := by
            unfold KeyBundleService.getPreKeyBundle; rw [hu, hs]
          rw [hnone] at h; cases h
      | some spk =>
          have heq : KeyBundleService.getPreKeyBundle u users spks otks =
              (some { user_id := user.id, username := user.username,
                      registration_id := user.registration_id,
                      identity_public_key := user.identity_public_key,
                      signed_pre_key := (spk.key_id, spk.public_key, spk.signature),
                      one_time_pre_key := (OneTimePreKey.consumeOne u otks).1.map
                        (fun k => (k.key_id, k.public_key)) },
               (OneTimePreKey.consumeOne u otks).2) := by
            unfold KeyBundleService.getPreKeyBundle; rw [hu, hs]
          rw [heq] at h
          rw [heq]
          rw [← Option.some.inj h]
          exact ⟨rfl, rfl⟩

/-- **C2.** Each one-time pre-key is consumed at most once: the select,
lock and delete run in one transaction inside `getBundle`, so of two
bundle fetches for the same user that each include a one-time key the
two included keys are distinct, and after a fetch returns a key that
key is absent from the user's remaining rows and the count has dropped
by exactly one.  (`hid` is the primary-key uniqueness of `id`; `hkey`
is the `(user_id, key_id)` unique index of the migration.) -/
theorem C2_one_time_key_consumed_once
    (users : List UserRow) (spks : List SignedPreKeyRow) (otks : List OneTimePreKeyRow)
    (u : String)
    (hid : (otks.map (fun r => r.id)).Nodup)
    (hkey : ∀ r ∈ otks, ∀ r' ∈ otks, r.user_id = r'.user_id → r.key_id = r'.key_id → r = r')
    (b1 b2 : PreKeyBundle) (k1 k2 : Nat × String)
    (h1 : (KeyBundleService.getPreKeyBundle u users spks otks).1 = some b1)
    (ho1 : b1.one_time_pre_key = some k1)
    (h2 : (KeyBundleService.getPreKeyBundle u users spks
            (KeyBundleService.getPreKeyBundle u users spks otks).2).1 = some b2)
    (ho2 : b2.one_time_pre_key = some k2) :
    k1 ≠ k2 ∧
    (∀ r ∈ (KeyBundleService.getPreKeyBundle u users spks otks).2,
      r.user_id = u → (r.key_id, r.public_key) ≠ k1) ∧
    OneTimePreKey.countByUserId u (KeyBundleService.getPreKeyBundle u users spks otks).2 + 1 =
      OneTimePreKey.countByUserId u otks := by
  obtain ⟨hstate1, hotk1⟩ := getPreKeyBundle_otk u users spks otks b1 h1
  rw [hotk1] at ho1
  obtain ⟨r1, hr1, hr1pair⟩ := Option.map_eq_some'.mp ho1
  obtain ⟨hr1mem, hr1u, hr1state⟩ := consumeOne_fst_some u otks r1 hr1
  have habsent : ∀ r ∈ (KeyBundleService.getPreKeyBundle u users spks otks).2,
      r.user_id = u → (r.key_id, r.public_key) ≠ k1 := by
    intro r hr hru heq
    rw [hstate1, hr1state] at hr
    have hmf := List.mem_filter.mp hr
    have hrid : r.id ≠ r1.id := by simpa using hmf.2
    have : r = r1 := by
      apply hkey r hmf.1 r1 hr1mem (by rw [hru, hr1u])
      have := heq.trans hr1pair.symm
      exact (Prod.mk.injEq _ _ _ _).mp this |>.1
    exact hrid (by rw [this])
  refine ⟨?_, habsent, ?_⟩
  · obtain ⟨hstate2, hotk2⟩ := getPreKeyBundle_otk u users spks
      (KeyBundleService.getPreKeyBundle u users spks otks).2 b2 h2
    rw [hotk2] at ho2
    obtain ⟨r2, hr2, hr2pair⟩ := Option.map_eq_some'.mp ho2
    obtain ⟨hr2mem, hr2u, _⟩ := consumeOne_fst_some u _ r2 hr2
    intro hkk
    exact habsent r2 hr2mem hr2u (by rw [hr2pair, ← hkk])
  · rw [hstate1, hr1state]
    exact countByUserId_remove u r1 otks hid hr1mem hr1u

/-- Witness for C2: a user with two uploaded one-time keys; two
successive bundle fetches return key ids 11 then 12, and after the
first fetch key 11 is gone and the count fell from 2 to 1. -/
theorem C2_one_time_key_consumed_once_witness :
    ((11, "P1") : Nat × String) ≠ (12, "P2") ∧
    (∀ r ∈ (KeyBundleService.getPreKeyBundle "a" exampleUsers exampleSpks exampleOtks).2,
      r.user_id = "a" → (r.key_id, r.public_key) ≠ (11, "P1")) ∧
    OneTimePreKey.countByUserId "a"
        (KeyBundleService.getPreKeyBundle "a" exampleUsers exampleSpks exampleOtks).2 + 1 =
      OneTimePreKey.countByUserId "a" exampleOtks := by
  refine C2_one_time_key_consumed_once exampleUsers exampleSpks exampleOtks "a"
    (by decide) ?_ exampleBundle1 exampleBundle2 (11, "P1") (12, "P2")
    (by decide) (by decide) (by decide) (by decide)
  intro r hr r' hr' hu hk
  fin_cases hr <;> fin_cases hr' <;> simp_all [exampleOtks]

/-- The rows `fetchAndDelete` returns are the first `limit` rows of the
recipient's rows sorted by ascending `created_at`, in both branches of
the source's empty-check. -/
theorem fetchAndDelete_fst (u : String) (l : Nat) (q : List QueuedMessageRow) :
    (QueuedMessage.fetchAndDelete u l q).1 =
      (List.insertionSort qle (queueRowsFor u q)).take l := by
  simp only [QueuedMessage.fetchAndDelete]
  by_cases he : ((List.insertionSort qle (queueRowsFor u q)).take l).isEmpty
  · rw [List.isEmpty_iff] at he
    simp [he]
  · simp [he]

/-- The table `fetchAndDelete` leaves behind is the old table minus
the rows whose ids were returned, in both branches of the source's
empty-check. -/
theorem fetchAndDelete_snd (u : String) (l : Nat) (q : List QueuedMessageRow) :
    (QueuedMessage.fetchAndDelete u l q).2 =
      q.filter (fun m =>
        !(((QueuedMessage.fetchAndDelete u l q).1.map (fun x => x.id)).contains m.id)) := by
  rw [fetchAndDelete_fst]
  simp only [QueuedMessage.fetchAndDelete]
  by_cases he : ((List.insertionSort qle (queueRowsFor u q)).take l).isEmpty
  · rw [List.isEmpty_iff] at he
    simp [he]
  · simp [he]

/-- **C3 (counterexample).** The claim says an immediately repeated
drain returns the empty list for every limit.  With two queued rows and
`limit = 1` the first drain returns only the older row, and the repeat
returns the newer one, not `[]`. -/
theorem C3_counterexample :
    (QueuedMessage.fetchAndDelete "r" 1
      (QueuedMessage.fetchAndDelete "r" 1 exampleQueue).2).1 ≠ [] := by
  decide

/-- **C3 (amended).** `fetchOffline` atomically selects, deletes and
returns the recipient's oldest at-most-`limit` rows in ascending
`createdAt` order; returned rows are gone from the table, a second
drain is disjoint from the first, and — provided the limit covers the
recipient's whole queue, which the counterexample shows is a necessary
proviso — the first drain returns every row of the recipient and the
immediately repeated drain returns the empty list. -/
theorem C3_fetch_and_delete_drain (u : String) (l l' : Nat) (q : List QueuedMessageRow) :
    List.Sorted qle (QueuedMessage.fetchAndDelete u l q).1 ∧
    (QueuedMessage.fetchAndDelete u l q).1.length ≤ l ∧
    (∀ m ∈ (QueuedMessage.fetchAndDelete u l q).1, m ∈ q ∧ m.recipient_id = u) ∧
    (∀ m ∈ (QueuedMessage.fetchAndDelete u l q).1, ∀ m' ∈ q, m'.recipient_id = u →
      m' ∉ (QueuedMessage.fetchAndDelete u l q).1 → m.created_at ≤ m'.created_at) ∧
    (∀ m ∈ (QueuedMessage.fetchAndDelete u l q).1,
      m ∉ (QueuedMessage.fetchAndDelete u l q).2) ∧
    (∀ m ∈ (QueuedMessage.fetchAndDelete u l' (QueuedMessage.fetchAndDelete u l q).2).1,
      ∀ m' ∈ (QueuedMessage.fetchAndDelete u l q).1, m.id ≠ m'.id) ∧
    ((queueRowsFor u q).length ≤ l →
      (∀ m ∈ q, m.recipient_id = u → m ∈ (QueuedMessage.fetchAndDelete u l q).1) ∧
      (QueuedMessage.fetchAndDelete u l' (QueuedMessage.fetchAndDelete u l q).2).1 = []) := by
  have hsorted := List.sorted_insertionSort qle (queueRowsFor u q)
  have hfst := fetchAndDelete_fst u l q
  have hsnd := fetchAndDelete_snd u l q
  have hmemS : ∀ m ∈ (QueuedMessage.fetchAndDelete u l q).1,
      m ∈ List.insertionSort qle (queueRowsFor u q) := by
    intro m hm
    rw [hfst] at hm
    exact List.mem_of_mem_take hm
  have hmem : ∀ m ∈ (QueuedMessage.fetchAndDelete u l q).1, m ∈ q ∧ m.recipient_id = u := by
    intro m hm
    have h1 := List.mem_insertionSort qle |>.mp (hmemS m hm)
    have h2 := List.mem_filter.mp h1
    exact ⟨h2.1, by simpa using h2.2⟩
  have hdel : ∀ m ∈ (QueuedMessage.fetchAndDelete u l q).1,
      m ∉ (QueuedMessage.fetchAndDelete u l q).2 := by
    intro m hm hcontra
    rw [hsnd] at hcontra
    have h2 := (List.mem_filter.mp hcontra).2
    simp at h2
    exact h2 m hm rfl
  have hsndid : ∀ m ∈ (QueuedMessage.fetchAndDelete u l q).2,
      ∀ m' ∈ (QueuedMessage.fetchAndDelete u l q).1, m.id ≠ m'.id := by
    intro m hm m' hm' he
    rw [hsnd] at hm
    have h2 := (List.mem_filter.mp hm).2
    simp at h2
    exact h2 m' hm' he.symm
  refine ⟨?_, ?_, hmem, ?_, hdel, ?_, ?_⟩
  · rw [hfst]
    exact List.Pairwise.sublist (List.take_sublist l _) hsorted
  · rw [hfst]
    exact List.length_take_le l _
  · intro m hm m' hm' hu' hnot
    have hm'S : m' ∈ List.insertionSort qle (queueRowsFor u q) := by
      rw [List.mem_insertionSort]
      exact List.mem_filter.mpr ⟨hm', by simpa using hu'⟩
    rw [hfst] at hm hnot
    have hsplit := (List.take_append_drop l
      (List.insertionSort qle (queueRowsFor u q))) ▸ hsorted
    have hcross := (List.pairwise_append.mp hsplit).2.2
    have hm'drop : m' ∈ (List.insertionSort qle (queueRowsFor u q)).drop l := by
      rcases List.mem_append.mp ((List.take_append_drop l
        (List.insertionSort qle (queueRowsFor u q))).symm ▸ hm'S) with h | h
      · exact absurd h hnot
      · exact h
    exact hcross m hm m' hm'drop
  · intro m hm m' hm'
    have hfst2 := fetchAndDelete_fst u l' (QueuedMessage.fetchAndDelete u l q).2
    rw [hfst2] at hm
    have h1 := (List.mem_insertionSort qle).mp (List.mem_of_mem_take hm)
    exact hsndid m (List.mem_filter.mp h1).1 m' hm'
  · intro hlen
    have htake : (List.insertionSort qle (queueRowsFor u q)).take l =
        List.insertionSort qle (queueRowsFor u q) := by
      apply List.take_of_length_le
      rw [List.length_insertionSort]
      exact hlen
    have hall : ∀ m ∈ q, m.recipient_id = u → m ∈ (QueuedMessage.fetchAndDelete u l q).1 := by
      intro m hm hu'
      rw [hfst, htake, List.mem_insertionSort]
      exact List.mem_filter.mpr ⟨hm, by simpa using hu'⟩
    refine ⟨hall, ?_⟩
    have hempty : queueRowsFor u (QueuedMessage.fetchAndDelete u l q).2 = [] := by
      apply List.filter_eq_nil_iff.mpr
      intro m hm
      rw [hsnd] at hm
      have hmq := (List.mem_filter.mp hm).1
      have h2 := (List.mem_filter.mp hm).2
      simp at h2
      intro hru
      have hm1 : m ∈ (QueuedMessage.fetchAndDelete u l q).1 := hall m hmq (by simpa using hru)
      exact h2 m hm1 rfl
    rw [fetchAndDelete_fst, hempty]
    simp

/-- Witness for the amended C3: with limit 2 covering the two-row
example queue, the repeated drain returns `[]`. -/
theorem C3_fetch_and_delete_drain_witness :
    (QueuedMessage.fetchAndDelete "r" 2
      (QueuedMessage.fetchAndDelete "r" 2 exampleQueue).2).1 = [] :=
  ((C3_fetch_and_delete_drain "r" 2 2 exampleQueue).2.2.2.2.2.2 (by decide)).2

/-- **C1 (counterexample).** The claim asserts that `verifyChallenge`'s
device replacement runs in one transaction, so no interleaved observer
sees zero rows or two rows for a user.  In the source,
`Device.upsertDevice` issues its delete and its insert as two separate
statements with no transaction, so: (i) there is an interleaving of two
`upsertDevice` calls for the same user after which the user has **two**
device rows, and (ii) after the first statement of a single call (the
delete, before the insert) an observer sees **zero** rows. -/
theorem C1_counterexample :
    ∃ sched : List DeviceTableOp,
      Interleaving (Device.upsertDeviceOps "u" "d1" "ipk" 7 none 1 0)
        (Device.upsertDeviceOps "u" "d2" "ipk" 7 none 2 0) sched ∧
      (Device.findByUserId "u" (applyDeviceOps [] sched)).length = 2 ∧
      Device.findByUserId "u"
        (applyDeviceOps [Device.newRow "u" "d0" "ipk" 7 none 0 0]
          ((Device.upsertDeviceOps "u" "d1" "ipk" 7 none 1 0).take 1)) = [] := by
  refine ⟨[DeviceTableOp.deleteAllForUser "u", DeviceTableOp.deleteAllForUser "u",
           DeviceTableOp.insertRow (Device.newRow "u" "d1" "ipk" 7 none 1 0),
           DeviceTableOp.insertRow (Device.newRow "u" "d2" "ipk" 7 none 2 0)],
         ?_, by decide, by decide⟩
  exact Interleaving.left (Interleaving.right (Interleaving.left
    (Interleaving.right Interleaving.nil)))

/-- **C1 (amended).** In a serial execution — no statements of another
call interleaved — each `Device.upsertDevice` leaves the user with
exactly the one freshly inserted device row, whatever the table held
before; the single-session invariant holds between calls, but not at
every instant and not under interleaving, because the delete and the
insert are separate statements outside any transaction. -/
theorem C1_upsert_serial (table : List DeviceRow) (u d ipk : String) (rid : Nat)
    (fcm : Option String) (nid : Nat) (now : Int) :
    Device.findByUserId u (Device.upsertDevice u d ipk rid fcm nid now table).2 =
      [Device.newRow u d ipk rid fcm nid now] := by
  simp only [Device.upsertDevice, Device.upsertDeviceOps, applyDeviceOps, List.foldl,
    applyDeviceOp, Device.findByUserId, List.filter_append, List.filter_filter]
  have h1 : table.filter (fun r => r.user_id == u && r.user_id != u) = [] := by
    apply List.filter_eq_nil_iff.mpr
    intro r _
    simp [bne]
  have h2 : [Device.newRow u d ipk rid fcm nid now].filter (fun r => r.user_id == u) =
      [Device.newRow u d ipk rid fcm nid now] := by
    simp [Device.newRow]
  rw [h1, h2]
  simp

/-- Witness for the amended C1 at a concrete table. -/
theorem C1_upsert_serial_witness :
    Device.findByUserId "u"
      (Device.upsertDevice "u" "d1" "ipk" 7 none 1 5
        [Device.newRow "u" "d0" "ipk" 7 none 0 0]).2 =
      [Device.newRow "u" "d1" "ipk" 7 none 1 5] :=
  C1_upsert_serial [Device.newRow "u" "d0" "ipk" 7 none 0 0] "u" "d1" "ipk" 7 none 1 5

/-- **C10.** The effective drain limit of `fetchOfflineMessages` equals
`min(max(n,1),100)` for a parse result `n ≠ 0`, and equals the default
`100` when the parse yields `0`, `NaN` or the parameter is absent; in
particular `limit=0` drains up to 100 messages, a negative limit drains
at most 1, and a limit above 100 is capped at 100. -/
theorem C10_effective_limit :
    (∀ n : Int, n ≠ 0 → effectiveDrainLimit (some n) = min (max n 1) 100) ∧
    effectiveDrainLimit none = 100 ∧
    effectiveDrainLimit (some 0) = 100 ∧
    effectiveDrainLimit (some (-5)) = 1 ∧
    effectiveDrainLimit (some 200) = 100 := by
  refine ⟨?_, by decide, by decide, by decide, by decide⟩
  intro n hn
  unfold effectiveDrainLimit jsParseIntOr100
  simp only [Int.zero_lt_one]
  have : (n == 0) = false := by
    simp [hn]
  rw [this]
  simp

/-- Witness for C10, applying the theorem at the parse result `7`. -/
theorem C10_effective_limit_witness :
    effectiveDrainLimit (some 7) = min (max 7 1) 100 :=
  C10_effective_limit.1 7 (by decide)

/-- No challenge row of a user survives `deleteByUserId`. -/
theorem deleteByUserId_no_rows (uid : String) (cs : List AuthChallengeRow) :
    (AuthChallenge.deleteByUserId uid cs).filter (fun c => c.user_id == uid) = [] := by
  unfold AuthChallenge.deleteByUserId
  rw [List.filter_filter]
  apply List.filter_eq_nil_iff.mpr
  intro c _
  by_cases h : c.user_id = uid <;> simp [h]

/-- After `deleteByUserId`, `findActiveByUserId` finds nothing for that
user at any instant. -/
theorem findActive_of_deleted (uid : String) (now : Int) (cs : List AuthChallengeRow) :
    AuthChallenge.findActiveByUserId uid now (AuthChallenge.deleteByUserId uid cs) = none := by
  unfold AuthChallenge.findActiveByUserId AuthChallenge.deleteByUserId
  have h : (cs.filter (fun c => c.user_id != uid)).filter
      (fun c => c.user_id == uid && decide (now < c.expires_at)) = [] := by
    rw [List.filter_filter]
    apply List.filter_eq_nil_iff.mpr
    intro c _
    by_cases hc : c.user_id = uid <;> simp [hc]
  rw [h]

/-- **C4.** Whenever `verifyChallenge` reaches an existing unexpired
challenge (valid input, user found, active challenge found), the
user's challenge rows are deleted before the call returns regardless
of the signature result, and therefore any immediately following
verify for the same username — with any signature and any verifier —
is rejected with 400 (`No active challenge found`), so a correct
signature over the consumed nonce no longer succeeds. -/
theorem C4_challenge_always_consumed
    (vf : String → String → String → Bool) (secret expiresIn : String) (now : Int)
    (nid : Nat) (username signature deviceId fcmToken : JField) (st : AuthState)
    (u sg dv : String) (fc : Option String) (user : UserRow) (ch : AuthChallengeRow)
    (hv : validateVerifyInput username signature deviceId fcmToken = .ok u sg dv fc)
    (hu : User.findByUsername u st.users = some user)
    (hc : AuthChallenge.findActiveByUserId user.id now st.challenges = some ch) :
    ((verifyChallenge vf secret expiresIn now nid username signature deviceId fcmToken
        st).state.challenges.filter (fun c => c.user_id == user.id) = []) ∧
    (∀ (vf2 : String → String → String → Bool) (now2 : Int) (nid2 : Nat)
        (sig2 fcm2 : JField) (sg2 : String) (fc2 : Option String),
      validateVerifyInput username sig2 deviceId fcm2 = .ok u sg2 dv fc2 →
      (verifyChallenge vf2 secret expiresIn now2 nid2 username sig2 deviceId fcm2
          (verifyChallenge vf secret expiresIn now nid username signature deviceId fcmToken
            st).state).status = 400 ∧
      (verifyChallenge vf2 secret expiresIn now2 nid2 username sig2 deviceId fcm2
          (verifyChallenge vf secret expiresIn now nid username signature deviceId fcmToken
            st).state).body = .err "No active challenge found — request a new one") := by
  have hstate :
      (verifyChallenge vf secret expiresIn now nid username signature deviceId fcmToken
        st).state.challenges = AuthChallenge.deleteByUserId user.id st.challenges ∧
      (verifyChallenge vf secret expiresIn now nid username signature deviceId fcmToken
        st).state.users = st.users := by
    simp only [verifyChallenge, hv, hu, hc]
    cases hvf : vf user.identity_public_key ch.nonce sg <;> simp
  refine ⟨hstate.1 ▸ deleteByUserId_no_rows user.id st.challenges, ?_⟩
  intro vf2 now2 nid2 sig2 fcm2 sg2 fc2 hv2
  set stMid := (verifyChallenge vf secret expiresIn now nid username signature deviceId
    fcmToken st).state with hstMid
  have hu2 : User.findByUsername u stMid.users = some user := hstate.2 ▸ hu
  have hc2 : AuthChallenge.findActiveByUserId user.id now2 stMid.challenges = none :=
    hstate.1 ▸ findActive_of_deleted user.id now2 st.challenges
  simp [verifyChallenge, hv2, hu2, hc2]

/-- Witness for C4: `alice`'s challenge is consumed by a failed verify,
and the repeat — even under a verifier that accepts everything — gets
400. -/
theorem C4_challenge_always_consumed_witness :
    ((verifyChallenge (fun _ _ _ => false) "secret" "7d" 0 2 (JField.jstr "alice")
        (JField.jstr exampleSig) (JField.jstr "d") JField.absent
        exampleAuthState).state.challenges.filter (fun c => c.user_id == "a") = []) ∧
    ((verifyChallenge (fun _ _ _ => true) "secret" "7d" 1 3 (JField.jstr "alice")
        (JField.jstr exampleSig) (JField.jstr "d") JField.absent
        (verifyChallenge (fun _ _ _ => false) "secret" "7d" 0 2 (JField.jstr "alice")
          (JField.jstr exampleSig) (JField.jstr "d") JField.absent
          exampleAuthState).state).status = 400) := by
  have h := C4_challenge_always_consumed (fun _ _ _ => false) "secret" "7d" 0 2
    (JField.jstr "alice") (JField.jstr exampleSig) (JField.jstr "d") JField.absent
    exampleAuthState "alice" exampleSig "d" none
    { id := "a", username := "alice", identity_public_key := "IPK", registration_id := 5 }
    { id := 1, user_id := "a", nonce := "N", expires_at := 100, created_at := 0 }
    (by decide) (by decide) (by decide)
  exact ⟨h.1, (h.2 (fun _ _ _ => true) 1 3 (JField.jstr exampleSig) JField.absent
    exampleSig none (by decide)).1⟩

/-- **C5 (counterexample).** The claim says unknown username, expired
or absent challenge, and invalid signature all yield the identical
generic 401.  In the source, an absent challenge is answered with
status 400 and the distinct body `No active challenge found — request a
new one`: for a known user with no challenge the response is neither
401 nor the generic body, so challenge state (and with it user
existence) is distinguishable. -/
theorem C5_counterexample :
    (verifyChallenge (fun _ _ _ => false) "secret" "7d" 0 1 (JField.jstr "alice")
        (JField.jstr exampleSig) (JField.jstr "d") JField.absent
        { users := exampleUsers, challenges := [], devices := [],
          oneTimePreKeys := [] }).status = 400 ∧
    (verifyChallenge (fun _ _ _ => false) "secret" "7d" 0 1 (JField.jstr "alice")
        (JField.jstr exampleSig) (JField.jstr "d") JField.absent
        { users := exampleUsers, challenges := [], devices := [],
          oneTimePreKeys := [] }).body =
      RespBody.err "No active challenge found — request a new one" ∧
    ¬((verifyChallenge (fun _ _ _ => false) "secret" "7d" 0 1 (JField.jstr "alice")
        (JField.jstr exampleSig) (JField.jstr "d") JField.absent
        { users := exampleUsers, challenges := [], devices := [],
          oneTimePreKeys := [] }).status = 401) := by
  refine ⟨by decide, by decide, by decide⟩

/-- **C5 (amended).** For well-formed input: unknown username and
invalid signature are answered with the byte-identical generic
`401 {success:false, error:"Authentication failed"}`, but an absent or
expired challenge is answered with `400` and the distinct body
`No active challenge found — request a new one`. -/
theorem C5_auth_failure_responses
    (vf : String → String → String → Bool) (secret expiresIn : String) (now : Int)
    (nid : Nat) (username signature deviceId fcmToken : JField) (st : AuthState)
    (u sg dv : String) (fc : Option String)
    (hv : validateVerifyInput username signature deviceId fcmToken = .ok u sg dv fc) :
    (User.findByUsername u st.users = none →
      verifyChallenge vf secret expiresIn now nid username signature deviceId fcmToken st =
        ⟨401, .err "Authentication failed", st⟩) ∧
    (∀ user, User.findByUsername u st.users = some user →
      AuthChallenge.findActiveByUserId user.id now st.challenges = none →
      verifyChallenge vf secret expiresIn now nid username signature deviceId fcmToken st =
        ⟨400, .err "No active challenge found — request a new one", st⟩) ∧
    (∀ user ch, User.findByUsername u st.users = some user →
      AuthChallenge.findActiveByUserId user.id now st.challenges = some ch →
      vf user.identity_public_key ch.nonce sg = false →
      (verifyChallenge vf secret expiresIn now nid username signature deviceId fcmToken
        st).status = 401 ∧
      (verifyChallenge vf secret expiresIn now nid username signature deviceId fcmToken
        st).body = .err "Authentication failed") := by
  refine ⟨?_, ?_, ?_⟩
  · intro hu
    simp [verifyChallenge, hv, hu]
  · intro user hu hc
    simp [verifyChallenge, hv, hu, hc]
  · intro user ch hu hc hvf
    simp [verifyChallenge, hv, hu, hc, hvf]

/-- Witness for the amended C5: with no registered users the verify
call answers the generic 401 and leaves the state unchanged. -/
theorem C5_auth_failure_responses_witness :
    verifyChallenge (fun _ _ _ => false) "secret" "7d" 0 1 (JField.jstr "bob")
        (JField.jstr exampleSig) (JField.jstr "d") JField.absent
        { users := [], challenges := [], devices := [], oneTimePreKeys := [] } =
      ⟨401, RespBody.err "Authentication failed",
        { users := [], challenges := [], devices := [], oneTimePreKeys := [] }⟩ :=
  (C5_auth_failure_responses (fun _ _ _ => false) "secret" "7d" 0 1 (JField.jstr "bob")
    (JField.jstr exampleSig) (JField.jstr "d") JField.absent
    { users := [], challenges := [], devices := [], oneTimePreKeys := [] }
    "bob" exampleSig "d" none (by decide)).1 (by decide)

/-- Characterization of the bearer extraction: it yields a token
exactly when the header is literally `"Bearer " ++ token` with a
non-empty token. -/
theorem extractBearerToken_eq_some (h t : String) :
    extractBearerToken (some h) = some t ↔ (h = "Bearer " ++ t ∧ t ≠ "") := by
  unfold extractBearerToken
  by_cases htake : h.data.take 7 = "Bearer ".data
  · simp only [htake, if_pos, if_true]
    by_cases hlen : 0 < (h.data.drop 7).length
    · simp only [hlen, if_pos, if_true]
      constructor
      · intro he
        have ht := Option.some.inj he
        have hdata : h.data = ("Bearer " ++ t).data := by
          show h.data = "Bearer ".data ++ t.data
          rw [← ht]
          show h.data = "Bearer ".data ++ h.data.drop 7
          rw [← htake]
          exact (List.take_append_drop 7 h.data).symm
        refine ⟨String.ext hdata, ?_⟩
        intro hteq
        rw [← ht] at hteq
        have : h.data.drop 7 = [] := by
          have := congrArg String.data hteq
          simpa using this
        rw [this] at hlen
        simp at hlen
      · rintro ⟨hh, hne⟩
        have hdrop : h.data.drop 7 = t.data := by
          rw [hh]
          show ("Bearer ".data ++ t.data).drop 7 = t.data
          have h7 : ("Bearer ".data).length = 7 := by decide
          rw [← h7, List.drop_left]
        rw [hdrop]
    · simp only [hlen, if_neg, if_false]
      constructor
      · intro he; cases he
      · rintro ⟨hh, hne⟩
        exfalso
        apply hlen
        have hdrop : h.data.drop 7 = t.data := by
          rw [hh]
          show ("Bearer ".data ++ t.data).drop 7 = t.data
          have h7 : ("Bearer ".data).length = 7 := by decide
          rw [← h7, List.drop_left]
        rw [hdrop]
        have : t.data ≠ [] := by
          intro hnil
          exact hne (String.ext (by simpa using hnil))
        exact List.length_pos.mpr this
  · simp only [htake, if_neg, if_false]
    constructor
    · intro he; cases he
    · rintro ⟨hh, _⟩
      exfalso
      apply htake
      rw [hh]
      show ("Bearer ".data ++ t.data).take 7 = "Bearer ".data
      have h7 : ("Bearer ".data).length = 7 := by decide
      rw [← h7, List.take_left]

/-- The payload validation succeeds exactly on objects whose `userId`
and `deviceId` fields are strings, and returns those strings. -/
theorem payloadCheck_eq_some (dec : JwtDecoded) (u d : String) :
    payloadCheck dec = some (u, d) ↔
      dec = .obj (some (.vstr u)) (some (.vstr d)) := by
  cases dec with
  | nonobject => simp [payloadCheck]
  | obj uidF didF =>
      rcases uidF with _ | v
      · simp [payloadCheck, isStrField]
      · rcases didF with _ | w
        · cases v <;> simp [payloadCheck, isStrField]
        · cases v <;> cases w <;> simp [payloadCheck, isStrField, strFieldVal]

/-- Every rejection of `authenticate` is the one generic 401. -/
theorem authenticate_reject_uniform (jwtVerify : String → String → Option JwtDecoded)
    (secret : String) (devices : List DeviceRow) (header : Option String) :
    (∃ uid did, authenticate jwtVerify secret devices header = .success uid did) ∨
    authenticate jwtVerify secret devices header =
      .reject 401 (.err "Authentication failed") := by
  cases hex : extractBearerToken header with
  | none => exact Or.inr (by simp [authenticate, hex])
  | some tok =>
    cases hjv : jwtVerify tok secret with
    | none => exact Or.inr (by simp [authenticate, hex, hjv])
    | some dec =>
      cases hpc : payloadCheck dec with
      | none => exact Or.inr (by simp [authenticate, hex, hjv, hpc])
      | some p =>
        cases hdev : Device.findByUserIdAndDeviceId p.1 p.2 devices with
        | none => exact Or.inr (by simp [authenticate, hex, hjv, hpc, hdev])
        | some dev => exact Or.inl ⟨p.1, p.2, by simp [authenticate, hex, hjv, hpc, hdev]⟩

/-- **C6.** The bearer middleware accepts a request if and only if the
Authorization header is exactly `Bearer <token>` with a non-empty
token, the token verifies (signature and expiry) against the server
secret into a payload carrying string `userId` and `deviceId`, and a
Device row for that pair still exists; every failing case is answered
with the identical `401 {success:false, error:"Authentication
failed"}`. -/
theorem C6_authenticate_characterization
    (jwtVerify : String → String → Option JwtDecoded) (secret : String)
    (devices : List DeviceRow) (header : Option String) :
    ((∃ uid did, authenticate jwtVerify secret devices header = .success uid did) ↔
      (∃ tok uid did, tok ≠ "" ∧ header = some ("Bearer " ++ tok) ∧
        jwtVerify tok secret =
          some (.obj (some (.vstr uid)) (some (.vstr did))) ∧
        ∃ dev ∈ devices, dev.user_id = uid ∧ dev.device_id = did)) ∧
    ((¬ ∃ uid did, authenticate jwtVerify secret devices header = .success uid did) →
      authenticate jwtVerify secret devices header =
        .reject 401 (.err "Authentication failed")) := by
  constructor
  · constructor
    · rintro ⟨uid, did, hsucc⟩
      cases hex : extractBearerToken header with
      | none => simp [authenticate, hex] at hsucc
      | some tok =>
        cases hjv : jwtVerify tok secret with
        | none => simp [authenticate, hex, hjv] at hsucc
        | some dec =>
          cases hpc : payloadCheck dec with
          | none => simp [authenticate, hex, hjv, hpc] at hsucc
          | some p =>
            cases hdev : Device.findByUserIdAndDeviceId p.1 p.2 devices with
            | none => simp [authenticate, hex, hjv, hpc, hdev] at hsucc
            | some dev =>
              have hs : authenticate jwtVerify secret devices header = .success p.1 p.2 := by
                simp [authenticate, hex, hjv, hpc, hdev]
              rw [hsucc] at hs
              obtain ⟨h1, h2⟩ := AuthResult.success.inj hs
              have hdec : dec = .obj (some (.vstr uid)) (some (.vstr did)) := by
                rw [h1, h2]
                exact (payloadCheck_eq_some dec p.1 p.2).mp (by rw [hpc])
              cases header with
              | none => cases hex
              | some hstr =>
                obtain ⟨hh, hne⟩ := (extractBearerToken_eq_some hstr tok).mp hex
                have hp := List.find?_some hdev
                simp only [Bool.and_eq_true, beq_iff_eq] at hp
                refine ⟨tok, uid, did, hne, by rw [hh], by rw [hjv, hdec], dev,
                  List.mem_of_find?_eq_some hdev, ?_, ?_⟩
                · rw [hp.1, h1]
                · rw [hp.2, h2]
    · rintro ⟨tok, uid, did, hne, hh, hjv, dev, hdevmem, hdevu, hdevd⟩
      have hex : extractBearerToken header = some tok := by
        rw [hh]
        exact (extractBearerToken_eq_some _ tok).mpr ⟨rfl, hne⟩
      have hpc : payloadCheck (.obj (some (.vstr uid)) (some (.vstr did))) =
          some (uid, did) :=
        (payloadCheck_eq_some _ uid did).mpr rfl
      have hfind : (Device.findByUserIdAndDeviceId uid did devices).isSome := by
        unfold Device.findByUserIdAndDeviceId
        rw [List.find?_isSome]
        exact ⟨dev, hdevmem, by simp [hdevu, hdevd]⟩
      cases hdev : Device.findByUserIdAndDeviceId uid did devices with
      | none => rw [hdev] at hfind; cases hfind
      | some d => exact ⟨uid, did, by simp [authenticate, hex, hjv, hpc, hdev]⟩
  · intro hns
    rcases authenticate_reject_uniform jwtVerify secret devices header with h | h
    · exact absurd h hns
    · exact h

/-- Witness for C6: a well-formed header, a token verifying to a
payload whose device row exists, is accepted. -/
theorem C6_authenticate_characterization_witness :
    ∃ uid did, authenticate exampleJwtVerify "secret" exampleDevices
      (some "Bearer T") = AuthResult.success uid did :=
  (C6_authenticate_characterization exampleJwtVerify "secret" exampleDevices
    (some "Bearer T")).1.mpr
    ⟨"T", "a", "d1", by decide, by decide, by decide,
     Device.newRow "a" "d1" "IPK" 5 none 1 0, by decide, rfl, rfl⟩

/-- **C7.** For a valid send request (authenticated sender, recipient
distinct from sender, recipient owning a device, valid input): the
call returns `{delivered:true}`, leaves the queue untouched and emits
exactly one `new_message` event to the recipient's socket if and only
if the recipient's registered socket exists and is connected;
otherwise (no registry entry, or a stale one) it returns 201
`{delivered:false, messageId}` and appends exactly one queue row whose
`encrypted_payload` is the base64 decoding of the ciphertext. -/
theorem C7_send_online_or_queue (senderId sdid : String)
    (recipientId ciphertext type : JField)
    (devices : List DeviceRow) (clients : List (String × OnlineClient))
    (connectedSockets : List String) (queue : List QueuedMessageRow)
    (newId : Nat) (now : Int) (recid ct mtype : String)
    (hv : validateSendInput recipientId ciphertext type = .ok recid ct mtype)
    (hne : recid ≠ senderId)
    (hdev : Device.findByUserId recid devices ≠ []) :
    (∀ dId sId, findOnlineDeviceForUser recid clients = some (dId, sId) →
      sId ∈ connectedSockets →
      sendMessage (some (senderId, sdid)) recipientId ciphertext type devices clients
          connectedSockets queue newId now =
        ⟨200, .deliveredOnline, queue, [⟨sId, senderId, ct, mtype, now⟩]⟩) ∧
    ((findOnlineDeviceForUser recid clients = none ∨
      (∃ dId sId, findOnlineDeviceForUser recid clients = some (dId, sId) ∧
        sId ∉ connectedSockets)) →
      sendMessage (some (senderId, sdid)) recipientId ciphertext type devices clients
          connectedSockets queue newId now =
        ⟨201, .queuedOffline newId,
          queue ++ [queuedRowDefaults recid senderId (b64decode ct) mtype newId now], []⟩) ∧
    ((sendMessage (some (senderId, sdid)) recipientId ciphertext type devices clients
        connectedSockets queue newId now).body = .deliveredOnline ↔
      ∃ dId sId, findOnlineDeviceForUser recid clients = some (dId, sId) ∧
        sId ∈ connectedSockets) := by
  have hbeq : (recid == senderId) = false := by simpa using hne
  have hlen : ((Device.findByUserId recid devices).length == 0) = false := by
    have hz : (Device.findByUserId recid devices).length ≠ 0 :=
      fun h => hdev (List.length_eq_zero.mp h)
    simpa using hz
  have honline : ∀ dId sId, findOnlineDeviceForUser recid clients = some (dId, sId) →
      sId ∈ connectedSockets →
      sendMessage (some (senderId, sdid)) recipientId ciphertext type devices clients
          connectedSockets queue newId now =
        ⟨200, .deliveredOnline, queue, [⟨sId, senderId, ct, mtype, now⟩]⟩ := by
    intro dId sId hon hconn
    simp [sendMessage, hv, hbeq, hlen, hon, hconn]
  have hqueue : (findOnlineDeviceForUser recid clients = none ∨
      (∃ dId sId, findOnlineDeviceForUser recid clients = some (dId, sId) ∧
        sId ∉ connectedSockets)) →
      sendMessage (some (senderId, sdid)) recipientId ciphertext type devices clients
          connectedSockets queue newId now =
        ⟨201, .queuedOffline newId,
          queue ++ [queuedRowDefaults recid senderId (b64decode ct) mtype newId now], []⟩ := by
    rintro (hon | ⟨dId, sId, hon, hnc⟩)
    · simp [sendMessage, hv, hbeq, hlen, hon]
    · simp [sendMessage, hv, hbeq, hlen, hon, hnc]
  refine ⟨honline, hqueue, ?_, ?_⟩
  · intro hb
    cases hon : findOnlineDeviceForUser recid clients with
    | none =>
        rw [hqueue (Or.inl hon)] at hb
        cases hb
    | some od =>
        obtain ⟨d1, s1⟩ := od
        by_cases hc : s1 ∈ connectedSockets
        · exact ⟨d1, s1, rfl, hc⟩
        · rw [hqueue (Or.inr ⟨d1, s1, hon, hc⟩)] at hb
          cases hb
  · rintro ⟨dId, sId, hon, hconn⟩
    rw [honline dId sId hon hconn]

/-- Witness for C7: `eve` sends `aGVsbG8=` to the offline `r`; the call
queues one row holding the raw bytes of `"hello"` and answers
`{delivered:false, messageId}`. -/
theorem C7_send_online_or_queue_witness :
    sendMessage (some ("s", "sd")) (JField.jstr "r") (JField.jstr "aGVsbG8=") JField.absent
        exampleRecipientDevices [] [] [] 9 0 =
      ⟨201, SendRespBody.queuedOffline 9,
        [queuedRowDefaults "r" "s" [104, 101, 108, 108, 111] "signal_message" 9 0], []⟩ := by
  have h := (C7_send_online_or_queue "s" "sd" (JField.jstr "r") (JField.jstr "aGVsbG8=")
    JField.absent exampleRecipientDevices [] [] [] 9 0 "r" "aGVsbG8=" "signal_message"
    (by decide) (by decide) (by decide)).2.1 (Or.inl rfl)
  rw [h]
  decide
